import Mathlib

/-!
Verification of the aggregation and diff core of the xyne-automation
report generators.

The repository has two Python sources,
src/framework/utils/html-report-generator.py and
src/framework/utils/pdf-report-generator.py.  The definitions below are a
shallow embedding of their pure aggregation, diffing and post-generation
control-flow logic.  Python dictionaries with optional keys are modelled
as structures with Option fields; dict.get with a default is Option.getD;
Python float arithmetic on durations and pass rates is modelled with exact
rationals; the Python builtin round (banker's rounding) is pyRound below.
-/

/-- Rounding as performed by the Python builtin round: nearest integer,
with ties resolved to the even neighbour. -/
def pyRound (q : ℚ) : ℤ :=
  if q - ⌊q⌋ < 1/2 then ⌊q⌋
  else if (1 : ℚ)/2 < q - ⌊q⌋ then ⌊q⌋ + 1
  else if ⌊q⌋ % 2 = 0 then ⌊q⌋ else ⌊q⌋ + 1

/-- One row of the test_run_summary table as consumed by
pdf-report-generator.py (fetch_report_data and calculate_summary).  A key
that may be missing from the fetched record is an Option field; the code
reads counters with record.get(key, 0), modelled as Option.getD 0. -/
structure SummaryRecord where
  module_name : Option String
  test_cases_run : Option Int
  test_cases_passed : Option Int
  test_cases_failed : Option Int
  test_cases_skipped : Option Int
  highest_priority_failed : Option Int
  high_priority_failed : Option Int
  medium_priority_failed : Option Int
  low_priority_failed : Option Int
  slack_report_link : Option String
  runenv : Option String
  username : Option String
deriving DecidableEq

/-- The dictionary returned by calculate_summary in
pdf-report-generator.py. -/
structure Summary where
  total_modules : Nat
  total_tests : Int
  total_passed : Int
  total_failed : Int
  total_skipped : Int
  pass_rate : Int
deriving DecidableEq

/-- calculate_summary from pdf-report-generator.py (lines 247-263):
elementwise sums of the per-module counters, and
pass_rate = round((total_passed / total_tests) * 100) when
total_tests > 0, else 0. -/
def calculate_summary (records : List SummaryRecord) : Summary :=
  let total_tests : Int := (records.map (fun r => r.test_cases_run.getD 0)).sum
  let total_passed : Int := (records.map (fun r => r.test_cases_passed.getD 0)).sum
  let total_failed : Int := (records.map (fun r => r.test_cases_failed.getD 0)).sum
  let total_skipped : Int := (records.map (fun r => r.test_cases_skipped.getD 0)).sum
  let pass_rate : Int :=
    if 0 < total_tests then pyRound (((total_passed : ℚ) / (total_tests : ℚ)) * 100) else 0
  { total_modules := records.length
    total_tests := total_tests
    total_passed := total_passed
    total_failed := total_failed
    total_skipped := total_skipped
    pass_rate := pass_rate }

/-- A module record with 3 of 4 tests passed, for concrete instances. -/
def loginRecord : SummaryRecord :=
  { module_name := some "login", test_cases_run := some 4, test_cases_passed := some 3,
    test_cases_failed := some 1, test_cases_skipped := some 0,
    highest_priority_failed := some 0, high_priority_failed := some 0,
    medium_priority_failed := some 1, low_priority_failed := some 0,
    slack_report_link := none, runenv := some "staging", username := none }

/-- A module record with 4 of 5 tests passed, for concrete instances. -/
def paymentsRecord : SummaryRecord :=
  { module_name := some "payments", test_cases_run := some 5, test_cases_passed := some 4,
    test_cases_failed := some 1, test_cases_skipped := some 0,
    highest_priority_failed := some 0, high_priority_failed := some 1,
    medium_priority_failed := some 0, low_priority_failed := some 0,
    slack_report_link := none, runenv := some "production", username := none }

/-- Two module records whose totals are 7 passed out of 9 run, the worked
example of the specification. -/
def sevenOfNineRecords : List SummaryRecord := [loginRecord, paymentsRecord]

/-- The environment label of the printable report, generate_pdf_report in
pdf-report-generator.py line 280: records[0].get(runenv key, Unknown).
The code only reaches this line with a non-empty record list. -/
def pdfEnvironment (records : List SummaryRecord) : String :=
  match records with
  | [] => "Unknown"
  | r :: _ => r.runenv.getD "Unknown"

/-- One test entry of the run_data JSONB tests array, as read by
html-report-generator.py.  Every key is optional; duration values are
modelled as exact rationals. -/
structure TestRec where
  name : Option String
  title : Option String
  status : Option String
  priority : Option String
  duration_ms : Option ℚ
  duration : Option ℚ
deriving DecidableEq

/-- Count of outcomes whose status key equals exactly the given string, as
computed by the generator-expression sums in fetch_current_run_data
(html-report-generator.py lines 266-268). -/
def countStatus : List TestRec → String → Nat
  | [], _ => 0
  | t :: ts, s => (if t.status = some s then 1 else 0) + countStatus ts s

/-- Count of outcomes whose status is none of the three recognized status
strings.  The code does not compute this quantity; it is the unknownCount
named by the specification: outcomes counted by testsRun but by none of
the passed, failed or skipped counters. -/
def unknownCount : List TestRec → Nat
  | [] => 0
  | t :: ts =>
    (if t.status ≠ some "passed" ∧ t.status ≠ some "failed" ∧ t.status ≠ some "skipped"
     then 1 else 0) + unknownCount ts

/-- Count of failed outcomes carrying the given priority string, as
computed in fetch_current_run_data (html-report-generator.py lines
271-274). -/
def failedWithPriority : List TestRec → String → Nat
  | [], _ => 0
  | t :: ts, p =>
    (if t.status = some "failed" ∧ t.priority = some p then 1 else 0) +
      failedWithPriority ts p

/-- The outcome carries one of the four recognized priority values. -/
def recognizedPriority (t : TestRec) : Prop :=
  t.priority = some "highest" ∨ t.priority = some "high" ∨
  t.priority = some "medium" ∨ t.priority = some "low"

instance (t : TestRec) : Decidable (recognizedPriority t) := by
  unfold recognizedPriority; infer_instance

/-- Count of failed outcomes carrying any of the four recognized priority
values; auxiliary quantity relating the four priority buckets to the
failed counter. -/
def recognizedFailedCount : List TestRec → Nat
  | [] => 0
  | t :: ts =>
    (if t.status = some "failed" ∧ recognizedPriority t then 1 else 0) +
      recognizedFailedCount ts

/-- A parsed module of the current run as built by fetch_current_run_data
(html-report-generator.py lines 276-292). -/
structure ParsedModule where
  module_name : Option String
  test_cases_run : Nat
  test_cases_passed : Nat
  test_cases_failed : Nat
  test_cases_skipped : Nat
  highest_priority_failed : Nat
  high_priority_failed : Nat
  medium_priority_failed : Nat
  low_priority_failed : Nat
  slack_report_link : Option String
  started_at : Option String
  completed_at : Option String
  runenv : Option String
  username : Option String
  tests : List TestRec
deriving DecidableEq

/-- The aggregation step of fetch_current_run_data: counters are computed
from the tests array, the remaining keys are carried through. -/
def parseModule (module_name slack_report_link started_at completed_at runenv username :
    Option String) (tests : List TestRec) : ParsedModule :=
  { module_name := module_name
    test_cases_run := tests.length
    test_cases_passed := countStatus tests "passed"
    test_cases_failed := countStatus tests "failed"
    test_cases_skipped := countStatus tests "skipped"
    highest_priority_failed := failedWithPriority tests "highest"
    high_priority_failed := failedWithPriority tests "high"
    medium_priority_failed := failedWithPriority tests "medium"
    low_priority_failed := failedWithPriority tests "low"
    slack_report_link := slack_report_link
    started_at := started_at
    completed_at := completed_at
    runenv := runenv
    username := username
    tests := tests }

/-- The overall statistics displayed by create_html
(html-report-generator.py lines 543-547 and the summary cards). -/
structure HtmlStats where
  module_count : Nat
  total_tests : Nat
  total_passed : Nat
  total_failed : Nat
  total_skipped : Nat
  pass_rate : Int
deriving DecidableEq

/-- Overall statistics of create_html: elementwise sums over the module
list and pass_rate = round((total_passed / total_tests) * 100) when
total_tests > 0, else 0. -/
def htmlStats (modules : List ParsedModule) : HtmlStats :=
  let total_tests : Nat := (modules.map (fun m => m.test_cases_run)).sum
  let total_passed : Nat := (modules.map (fun m => m.test_cases_passed)).sum
  let total_failed : Nat := (modules.map (fun m => m.test_cases_failed)).sum
  let total_skipped : Nat := (modules.map (fun m => m.test_cases_skipped)).sum
  let pass_rate : Int :=
    if 0 < total_tests then pyRound (((total_passed : ℚ) / (total_tests : ℚ)) * 100) else 0
  { module_count := modules.length
    total_tests := total_tests
    total_passed := total_passed
    total_failed := total_failed
    total_skipped := total_skipped
    pass_rate := pass_rate }

/-- The environment label of the interactive report, create_html line 551:
modules[0].get(runenv key, Unknown) when the module list is non-empty,
Unknown otherwise. -/
def runEnv (modules : List ParsedModule) : String :=
  match modules with
  | [] => "Unknown"
  | m :: _ => m.runenv.getD "Unknown"

/-- The duration value the differ works with, generate_test_list_html
lines 492 and 504: test.get(duration_ms key, test.get(duration key, 0)).
An absent duration therefore degrades to the number 0. -/
def effDuration (t : TestRec) : ℚ :=
  t.duration_ms.getD (t.duration.getD 0)

/-- The matching key of a previous-run test, generate_test_list_html line
467: test.get(name key, test.get(title key, empty string)). -/
def effNamePrev (t : TestRec) : String :=
  t.name.getD (t.title.getD "")

/-- The matching key of a current-run test, generate_test_list_html line
488: test.get(name key, test.get(title key, Unknown Test)). -/
def effNameCur (t : TestRec) : String :=
  t.name.getD (t.title.getD "Unknown Test")

/-- Result of the per-test timing comparison of generate_test_list_html:
either the not-applicable marker, or a classified difference carrying the
signed delta and the signed percent change. -/
inductive TimeDiff where
  | na : TimeDiff
  | cmp (cls : String) (delta pct : ℚ) : TimeDiff
deriving DecidableEq

/-- The timing comparison of generate_test_list_html lines 497-518.  The
Python truthiness tests on prev_test, prev_duration and duration become:
no previous test, a previous duration equal to 0, or a current duration
equal to 0, all yield the not-applicable marker.  Otherwise
time_diff = duration - prev_duration,
percent_change = (time_diff / prev_duration) * 100 when prev_duration > 0
else 0, and the classification follows the sign of time_diff. -/
def computeTimeDiff (t : TestRec) (prevTest : Option TestRec) : TimeDiff :=
  match prevTest with
  | none => TimeDiff.na
  | some pt =>
    let pd := effDuration pt
    if pd = 0 then TimeDiff.na
    else
      let d := effDuration t
      if d = 0 then TimeDiff.na
      else
        let diff := d - pd
        let pct := if 0 < pd then diff / pd * 100 else 0
        if 0 < diff then TimeDiff.cmp "worse" diff pct
        else if diff < 0 then TimeDiff.cmp "better" diff pct
        else TimeDiff.cmp "same" diff pct

/-- Insertion into a Python dictionary modelled as an association list:
an existing key keeps its position and its value is replaced, a new key is
appended. -/
def dictInsert {κ α : Type} [DecidableEq κ] : List (κ × α) → κ → α → List (κ × α)
  | [], k, v => [(k, v)]
  | (k0, v0) :: rest, k, v =>
    if k0 = k then (k, v) :: rest else (k0, v0) :: dictInsert rest k v

/-- Lookup in a Python dictionary modelled as an association list, the
get method returning none for an absent key. -/
def dictGet? {κ α : Type} [DecidableEq κ] : List (κ × α) → κ → Option α
  | [], _ => none
  | (k0, v0) :: rest, k => if k0 = k then some v0 else dictGet? rest k

/-- The prev_tests_map built by generate_test_list_html lines 463-468: a
dictionary keyed by the effective test name, filled by one assignment per
previous-run test in sequence order. -/
def buildPrevTestsMap (prevTests : List TestRec) : List (String × TestRec) :=
  prevTests.foldl (fun mp t => dictInsert mp (effNamePrev t) t) []

/-- A parsed module of the previous run as built by
fetch_previous_run_data (html-report-generator.py lines 369-378). -/
structure PrevParsedModule where
  module_name : Option String
  test_cases_run : Nat
  test_cases_passed : Nat
  test_cases_failed : Nat
  test_cases_skipped : Nat
  started_at : Option String
  completed_at : Option String
  tests : List TestRec
deriving DecidableEq

/-- The aggregation step of fetch_previous_run_data. -/
def parsePrevModule (module_name started_at completed_at : Option String)
    (tests : List TestRec) : PrevParsedModule :=
  { module_name := module_name
    test_cases_run := tests.length
    test_cases_passed := countStatus tests "passed"
    test_cases_failed := countStatus tests "failed"
    test_cases_skipped := countStatus tests "skipped"
    started_at := started_at
    completed_at := completed_at
    tests := tests }

/-- The prev_map built by generate_html_report lines 426-429, keyed by the
module_name entry of each previous-run module. -/
def buildPrevModuleMap (prevModules : List PrevParsedModule) :
    List (Option String × PrevParsedModule) :=
  prevModules.foldl (fun mp pm => dictInsert mp pm.module_name pm) []

/-- The per-module comparison block of create_html lines 1034-1064:
signed deltas of the three counters and their classification, the failed
delta classified with inverted sign. -/
structure ModuleComparison where
  passed_diff : Int
  failed_diff : Int
  skipped_diff : Int
  passed_class : String
  failed_class : String
deriving DecidableEq

/-- The comparison of create_html lines 1031-1064: the previous module is
looked up by module name; when the lookup fails no comparison block is
produced, otherwise the three deltas and classes are computed. -/
def moduleComparison (prevMap : List (Option String × PrevParsedModule))
    (m : ParsedModule) : Option ModuleComparison :=
  match dictGet? prevMap m.module_name with
  | none => none
  | some pm =>
    let passed_diff : Int := (m.test_cases_passed : Int) - (pm.test_cases_passed : Int)
    let failed_diff : Int := (m.test_cases_failed : Int) - (pm.test_cases_failed : Int)
    let skipped_diff : Int := (m.test_cases_skipped : Int) - (pm.test_cases_skipped : Int)
    some { passed_diff := passed_diff
           failed_diff := failed_diff
           skipped_diff := skipped_diff
           passed_class :=
             if 0 < passed_diff then "better" else if passed_diff < 0 then "worse" else "same"
           failed_class :=
             if failed_diff < 0 then "better" else if 0 < failed_diff then "worse" else "same" }

/-- Outcome of the chat-upload attempt inside the try block of main:
the upload reported success, the upload reported failure, or an exception
escaped into the enclosing except clause. -/
inductive SlackAttempt where
  | delivered : SlackAttempt
  | notDelivered : SlackAttempt
  | raisedError : SlackAttempt
deriving DecidableEq

/-- Observable outcome of the tail of main: the files present on disk,
the lines printed (emoji prefixes omitted), and the process exit code. -/
structure ProcResult where
  files : List String
  printed : List String
  exitCode : Nat
deriving DecidableEq

/-- The tail of main in html-report-generator.py (lines 1157-1186), after
generate_html_report returned.  The code performs no file-system
operation there, so the file list passes through unchanged; every branch
of the inner try block falls through to the output-path line and
sys.exit(0). -/
def htmlMainAfterGeneration (fs : List String) (outputPath : Option String)
    (attempt : SlackAttempt) : ProcResult :=
  match outputPath with
  | none => { files := fs, printed := [], exitCode := 1 }
  | some p =>
    let deliveryLines :=
      match attempt with
      | SlackAttempt.delivered => ["HTML report uploaded to Slack successfully"]
      | SlackAttempt.notDelivered =>
          ["Failed to upload HTML report to Slack, but generation was successful"]
      | SlackAttempt.raisedError =>
          ["Error uploading HTML to Slack", "HTML generation was successful, continuing..."]
    { files := fs
      printed := ("HTML report generated successfully: " ++ p) ::
        deliveryLines ++ ["HTML_OUTPUT_PATH:" ++ p]
      exitCode := 0 }

/-- The tail of main in pdf-report-generator.py (lines 573-607), after
generate_pdf_report returned.  The data is fetched again for the chat
notification; an empty refetch, a reported upload failure, or an
exception caught by the except clause all fall through to the output-path
line and sys.exit(0), and no file-system operation happens. -/
def pdfMainAfterGeneration (fs : List String) (outputPath : Option String)
    (refetch : Option (List SummaryRecord)) (attempt : SlackAttempt) : ProcResult :=
  match outputPath with
  | none => { files := fs, printed := [], exitCode := 1 }
  | some p =>
    let deliveryLines :=
      match attempt with
      | SlackAttempt.raisedError =>
          ["Sending PDF report to Slack...", "Error sending PDF to Slack",
           "PDF generation was successful, continuing..."]
      | SlackAttempt.delivered =>
          match refetch with
          | some (_ :: _) =>
              ["Sending PDF report to Slack...", "PDF report sent to Slack successfully"]
          | _ =>
              ["Sending PDF report to Slack...",
               "Could not fetch data for Slack notification, but PDF generation was successful"]
      | SlackAttempt.notDelivered =>
          match refetch with
          | some (_ :: _) =>
              ["Sending PDF report to Slack...",
               "Failed to send PDF report to Slack, but PDF generation was successful"]
          | _ =>
              ["Sending PDF report to Slack...",
               "Could not fetch data for Slack notification, but PDF generation was successful"]
    { files := fs
      printed := ("PDF report generated successfully: " ++ p) ::
        deliveryLines ++ ["PDF_OUTPUT_PATH:" ++ p]
      exitCode := 0 }

/-- A previous-run test named checkout test with duration 1000 ms. -/
def checkoutPrevTest : TestRec :=
  { name := some "checkout test", title := none, status := some "passed",
    priority := some "medium", duration_ms := some 1000, duration := none }

/-- A current-run test named checkout test with duration 1200 ms. -/
def checkoutCurTest : TestRec :=
  { name := some "checkout test", title := none, status := some "passed",
    priority := some "medium", duration_ms := some 1200, duration := none }

/-- A current-run test named checkout test with a recorded duration of
exactly 0 ms: the duration key is present and holds the value 0. -/
def checkoutZeroTest : TestRec :=
  { name := some "checkout test", title := none, status := some "passed",
    priority := some "medium", duration_ms := some 0, duration := none }

/-- A previous-run test named search test with duration 500 ms. -/
def searchPrevTest : TestRec :=
  { name := some "search test", title := none, status := some "passed",
    priority := some "medium", duration_ms := some 500, duration := none }

/-- A current-run test named search test with a recorded duration of
exactly 0 ms. -/
def searchZeroTest : TestRec :=
  { name := some "search test", title := none, status := some "passed",
    priority := some "medium", duration_ms := some 0, duration := none }

/-- A current-run test named search test with no duration key at all. -/
def searchAbsentTest : TestRec :=
  { name := some "search test", title := none, status := some "passed",
    priority := some "medium", duration_ms := none, duration := none }

/-- First previous-run occurrence of the duplicated name login test,
duration 100 ms. -/
def loginDupFirst : TestRec :=
  { name := some "login test", title := none, status := some "passed",
    priority := some "medium", duration_ms := some 100, duration := none }

/-- Second previous-run occurrence of the duplicated name login test,
duration 300 ms. -/
def loginDupSecond : TestRec :=
  { name := some "login test", title := none, status := some "failed",
    priority := some "high", duration_ms := some 300, duration := none }

/-- Current-run test named login test, duration 200 ms. -/
def loginDupCur : TestRec :=
  { name := some "login test", title := none, status := some "passed",
    priority := some "medium", duration_ms := some 200, duration := none }

/-- A failed outcome carrying the highest priority. -/
def failedHighestTest : TestRec :=
  { name := some "signup test", title := none, status := some "failed",
    priority := some "highest", duration_ms := some 50, duration := none }

/-- A parsed current-run module whose run carries the staging label. -/
def stagingModule : ParsedModule :=
  parseModule (some "login") none none none (some "staging") none [loginDupCur]

/-- A parsed current-run module whose run carries the production label. -/
def productionModule : ParsedModule :=
  parseModule (some "payments") none none none (some "production") none [checkoutCurTest]

/-- C1: for every module record collection the run-level pass rate equals
round(100 * totalPassed / totalTests) when totalTests > 0 and equals 0
when totalTests = 0, for the printable and the interactive generator
alike; the totals 7 passed of 9 run give pass rate 78. -/
theorem c1_pass_rate_formula :
    (∀ records : List SummaryRecord,
      (0 < (calculate_summary records).total_tests →
        (calculate_summary records).pass_rate =
          pyRound (100 * ((calculate_summary records).total_passed : ℚ) /
            ((calculate_summary records).total_tests : ℚ))) ∧
      ((calculate_summary records).total_tests = 0 →
        (calculate_summary records).pass_rate = 0)) ∧
    (∀ modules : List ParsedModule,
      (0 < (htmlStats modules).total_tests →
        (htmlStats modules).pass_rate =
          pyRound (100 * ((htmlStats modules).total_passed : ℚ) /
            ((htmlStats modules).total_tests : ℚ))) ∧
      ((htmlStats modules).total_tests = 0 →
        (htmlStats modules).pass_rate = 0)) ∧
    (calculate_summary sevenOfNineRecords).total_passed = 7 ∧
    (calculate_summary sevenOfNineRecords).total_tests = 9 ∧
    (calculate_summary sevenOfNineRecords).pass_rate = 78 := by
  refine ⟨fun records => ⟨fun h => ?_, fun h => ?_⟩,
          fun modules => ⟨fun h => ?_, fun h => ?_⟩, ?_, ?_, ?_⟩
  · have hrfl : (calculate_summary records).pass_rate =
        (if 0 < (calculate_summary records).total_tests then
          pyRound ((((calculate_summary records).total_passed : ℚ) /
            ((calculate_summary records).total_tests : ℚ)) * 100)
        else 0) := rfl
    rw [hrfl, if_pos h]
    congr 1
    ring
  · have hrfl : (calculate_summary records).pass_rate =
        (if 0 < (calculate_summary records).total_tests then
          pyRound ((((calculate_summary records).total_passed : ℚ) /
            ((calculate_summary records).total_tests : ℚ)) * 100)
        else 0) := rfl
    rw [hrfl, if_neg (by omega)]
  · have hrfl : (htmlStats modules).pass_rate =
        (if 0 < (htmlStats modules).total_tests then
          pyRound ((((htmlStats modules).total_passed : ℚ) /
            ((htmlStats modules).total_tests : ℚ)) * 100)
        else 0) := rfl
    rw [hrfl, if_pos h]
    congr 1
    ring
  · have hrfl : (htmlStats modules).pass_rate =
        (if 0 < (htmlStats modules).total_tests then
          pyRound ((((htmlStats modules).total_passed : ℚ) /
            ((htmlStats modules).total_tests : ℚ)) * 100)
        else 0) := rfl
    rw [hrfl, if_neg (by omega)]
  · norm_num [calculate_summary, sevenOfNineRecords, loginRecord, paymentsRecord]
  · norm_num [calculate_summary, sevenOfNineRecords, loginRecord, paymentsRecord]
  · norm_num [calculate_summary, sevenOfNineRecords, loginRecord, paymentsRecord, pyRound]

/-- Witness for c1_pass_rate_formula: the formula instantiated at the
seven-of-nine example. -/
theorem c1_pass_rate_formula_witness :
    0 < (calculate_summary sevenOfNineRecords).total_tests ∧
    (calculate_summary sevenOfNineRecords).pass_rate =
      pyRound (100 * ((calculate_summary sevenOfNineRecords).total_passed : ℚ) /
        ((calculate_summary sevenOfNineRecords).total_tests : ℚ)) := by
  have h : 0 < (calculate_summary sevenOfNineRecords).total_tests := by
    norm_num [calculate_summary, sevenOfNineRecords, loginRecord, paymentsRecord]
  exact ⟨h, (c1_pass_rate_formula.1 sevenOfNineRecords).1 h⟩

/-- C8: the run-level summary is invariant under permutations of the
module record sequence. -/
theorem c8_summary_permutation_invariant (l1 l2 : List SummaryRecord)
    (h : l1.Perm l2) : calculate_summary l1 = calculate_summary l2 := by
  have ht := (h.map (fun r => r.test_cases_run.getD 0)).sum_eq
  have hp := (h.map (fun r => r.test_cases_passed.getD 0)).sum_eq
  have hf := (h.map (fun r => r.test_cases_failed.getD 0)).sum_eq
  have hs := (h.map (fun r => r.test_cases_skipped.getD 0)).sum_eq
  simp only [calculate_summary, ht, hp, hf, hs, h.length_eq]

/-- Witness for c8_summary_permutation_invariant: swapping two concrete
module records leaves the summary unchanged. -/
theorem c8_summary_permutation_invariant_witness :
    calculate_summary [loginRecord, paymentsRecord] =
      calculate_summary [paymentsRecord, loginRecord] :=
  c8_summary_permutation_invariant _ _ (List.Perm.swap paymentsRecord loginRecord [])

/-- Every outcome lands in exactly one of the passed, failed, skipped and
unknown buckets. -/
theorem statusCount_partition (tests : List TestRec) :
    countStatus tests "passed" + countStatus tests "failed" +
      countStatus tests "skipped" + unknownCount tests = tests.length := by
  induction tests with
  | nil => rfl
  | cons t ts ih =>
    simp only [countStatus, unknownCount, List.length_cons]
    split_ifs <;> first | omega | simp_all

/-- C2: for every outcome sequence aggregated by fetch_current_run_data,
testsPassed + testsFailed + testsSkipped + unknownCount equals testsRun,
where the three counters count exact status matches and unknownCount the
remaining outcomes. -/
theorem c2_status_partition (module_name slack started completed runenv username : Option String)
    (tests : List TestRec) :
    (parseModule module_name slack started completed runenv username tests).test_cases_passed +
      (parseModule module_name slack started completed runenv username tests).test_cases_failed +
      (parseModule module_name slack started completed runenv username tests).test_cases_skipped +
      unknownCount tests =
      (parseModule module_name slack started completed runenv username tests).test_cases_run :=
  statusCount_partition tests

/-- The recognized failed count never exceeds the failed count. -/
theorem recognizedFailedCount_le (tests : List TestRec) :
    recognizedFailedCount tests ≤ countStatus tests "failed" := by
  induction tests with
  | nil => exact Nat.le_refl 0
  | cons t ts ih =>
    simp only [recognizedFailedCount, countStatus]
    split_ifs <;> first | omega | simp_all

/-- The four priority buckets sum to the recognized failed count. -/
theorem prioritySum_eq_recognizedFailedCount (tests : List TestRec) :
    failedWithPriority tests "highest" + failedWithPriority tests "high" +
      failedWithPriority tests "medium" + failedWithPriority tests "low" =
      recognizedFailedCount tests := by
  induction tests with
  | nil => rfl
  | cons t ts ih =>
    simp only [failedWithPriority, recognizedFailedCount, recognizedPriority]
    split_ifs <;> first | omega | simp_all

/-- The recognized failed count equals the failed count exactly when every
failed outcome carries a recognized priority. -/
theorem recognizedFailedCount_eq_iff (tests : List TestRec) :
    (recognizedFailedCount tests = countStatus tests "failed") ↔
      ∀ t ∈ tests, t.status = some "failed" → recognizedPriority t := by
  induction tests with
  | nil => simp [recognizedFailedCount, countStatus]
  | cons t ts ih =>
    have hle := recognizedFailedCount_le ts
    simp only [recognizedFailedCount, countStatus]
    by_cases hF : t.status = some "failed"
    · by_cases hR : recognizedPriority t
      · rw [if_pos ⟨hF, hR⟩, if_pos hF, List.forall_mem_cons]
        constructor
        · intro h
          exact ⟨fun _ => hR, ih.mp (by omega)⟩
        · intro h
          have := ih.mpr h.2
          omega
      · rw [if_neg (fun hc => hR hc.2), if_pos hF, List.forall_mem_cons]
        constructor
        · intro h
          exact absurd h (by omega)
        · intro h
          exact absurd (h.1 hF) hR
    · rw [if_neg (fun hc => hF hc.1), if_neg hF, List.forall_mem_cons]
      constructor
      · intro h
        exact ⟨fun hc => absurd hc hF, ih.mp (by omega)⟩
      · intro h
        have := ih.mpr h.2
        omega

/-- C3: the four priority failure counts sum to at most testsFailed, with
equality exactly when every failed outcome carries one of the four
recognized priority values. -/
theorem c3_priority_buckets (module_name slack started completed runenv username : Option String)
    (tests : List TestRec) :
    ((parseModule module_name slack started completed runenv username tests).highest_priority_failed +
      (parseModule module_name slack started completed runenv username tests).high_priority_failed +
      (parseModule module_name slack started completed runenv username tests).medium_priority_failed +
      (parseModule module_name slack started completed runenv username tests).low_priority_failed ≤
      (parseModule module_name slack started completed runenv username tests).test_cases_failed) ∧
    (((parseModule module_name slack started completed runenv username tests).highest_priority_failed +
      (parseModule module_name slack started completed runenv username tests).high_priority_failed +
      (parseModule module_name slack started completed runenv username tests).medium_priority_failed +
      (parseModule module_name slack started completed runenv username tests).low_priority_failed =
      (parseModule module_name slack started completed runenv username tests).test_cases_failed) ↔
      ∀ t ∈ tests, t.status = some "failed" → recognizedPriority t) := by
  have hsum := prioritySum_eq_recognizedFailedCount tests
  have hle := recognizedFailedCount_le tests
  have hiff := recognizedFailedCount_eq_iff tests
  constructor
  · show failedWithPriority tests "highest" + failedWithPriority tests "high" +
      failedWithPriority tests "medium" + failedWithPriority tests "low" ≤
      countStatus tests "failed"
    omega
  · show (failedWithPriority tests "highest" + failedWithPriority tests "high" +
      failedWithPriority tests "medium" + failedWithPriority tests "low" =
      countStatus tests "failed") ↔ _
    rw [hsum]
    exact hiff

/-- C4 counterexample: a current duration that is present and holds the
valid value 0 is available, together with a previous duration of 1000 ms,
yet the differ yields the not-applicable marker instead of the classified
delta of -1000 ms the claim prescribes for every available pair. -/
theorem c4_zero_duration_counterexample :
    checkoutZeroTest.duration_ms = some 0 ∧
    checkoutPrevTest.duration_ms = some 1000 ∧
    computeTimeDiff checkoutZeroTest (some checkoutPrevTest) = TimeDiff.na ∧
    computeTimeDiff checkoutZeroTest (some checkoutPrevTest) ≠
      TimeDiff.cmp "better" (-1000) (-100) := by
  have h4 : computeTimeDiff checkoutZeroTest (some checkoutPrevTest) = TimeDiff.na := by
    norm_num [computeTimeDiff, effDuration, checkoutZeroTest, checkoutPrevTest]
  refine ⟨rfl, rfl, h4, ?_⟩
  rw [h4]
  intro h
  exact TimeDiff.noConfusion h

/-- C4 amended: whenever the current and the previous duration are both
present and nonzero (the previous one positive), the differ computes
durationDelta = current - previous and
percentChange = 100 * durationDelta / previous and classifies worse,
better or same by the sign of durationDelta; a zero or absent previous
duration never reaches the division and yields the not-applicable
marker. -/
theorem c4_duration_delta_amended :
    (∀ t pt : TestRec, effDuration t ≠ 0 → 0 < effDuration pt →
      computeTimeDiff t (some pt) =
        TimeDiff.cmp
          (if 0 < effDuration t - effDuration pt then "worse"
           else if effDuration t - effDuration pt < 0 then "better" else "same")
          (effDuration t - effDuration pt)
          (100 * (effDuration t - effDuration pt) / effDuration pt)) ∧
    (∀ t pt : TestRec, effDuration pt = 0 →
      computeTimeDiff t (some pt) = TimeDiff.na) := by
  constructor
  · intro t pt hd hpd
    have hne : effDuration pt ≠ 0 := ne_of_gt hpd
    simp only [computeTimeDiff]
    rw [if_neg hne, if_neg hd, if_pos hpd]
    have hpct : (effDuration t - effDuration pt) / effDuration pt * 100 =
        100 * (effDuration t - effDuration pt) / effDuration pt := by ring
    rw [hpct]
    split_ifs <;> rfl
  · intro t pt h
    simp only [computeTimeDiff]
    rw [if_pos h]

/-- Witness for c4_duration_delta_amended: current 1200 ms against
previous 1000 ms gives delta 200 ms, percent change 20, classified
worse. -/
theorem c4_duration_delta_amended_witness :
    computeTimeDiff checkoutCurTest (some checkoutPrevTest) =
      TimeDiff.cmp "worse" 200 20 := by
  have h := c4_duration_delta_amended.1 checkoutCurTest checkoutPrevTest
    (by norm_num [effDuration, checkoutCurTest])
    (by norm_num [effDuration, checkoutPrevTest])
  rw [h]
  norm_num [effDuration, checkoutCurTest, checkoutPrevTest]

/-- C5: the code conflates a recorded zero duration with an absent
duration.  Both degrade to the effective duration 0, and both yield the
not-applicable comparison although a previous duration of 500 ms is
available, so a zero duration is not compared and is indistinguishable
from absent timing. -/
theorem c5_zero_duration_conflated :
    searchZeroTest.duration_ms = some 0 ∧
    searchAbsentTest.duration_ms = none ∧
    searchAbsentTest.duration = none ∧
    effDuration searchZeroTest = effDuration searchAbsentTest ∧
    computeTimeDiff searchZeroTest (some searchPrevTest) = TimeDiff.na ∧
    computeTimeDiff searchAbsentTest (some searchPrevTest) = TimeDiff.na := by
  refine ⟨rfl, rfl, rfl, rfl, ?_, ?_⟩ <;>
    norm_num [computeTimeDiff, effDuration, searchZeroTest, searchAbsentTest, searchPrevTest]

/-- Lookup after a dictionary insertion: the inserted key now maps to the
inserted value and every other key is unaffected. -/
theorem dictGet_dictInsert {κ α : Type} [DecidableEq κ] (m : List (κ × α)) (k q : κ) (v : α) :
    dictGet? (dictInsert m k v) q = if k = q then some v else dictGet? m q := by
  induction m with
  | nil => simp [dictInsert, dictGet?]
  | cons kv rest ih =>
    obtain ⟨k0, v0⟩ := kv
    simp only [dictInsert]
    by_cases h0 : k0 = k
    · subst h0
      simp only [if_pos rfl, dictGet?]
      by_cases hq : k0 = q <;> simp [hq]
    · rw [if_neg h0]
      by_cases hq : k0 = q
      · subst hq
        have hk : ¬ k = k0 := fun he => h0 he.symm
        simp [dictGet?, hk]
      · simp [dictGet?, hq, ih]

/-- Lookup in the fold that builds a previous-test dictionary: the last
matching assignment wins, with the initial map as fallback. -/
theorem dictGet_foldInsert (ts : List TestRec) (m : List (String × TestRec)) (k : String) :
    dictGet? (ts.foldl (fun mp t => dictInsert mp (effNamePrev t) t) m) k =
      ((ts.reverse.find? (fun t => effNamePrev t == k)).or (dictGet? m k)) := by
  induction ts generalizing m with
  | nil => simp
  | cons t ts ih =>
    simp only [List.foldl_cons, List.reverse_cons]
    rw [ih, List.find?_append]
    cases hf : ts.reverse.find? (fun t => effNamePrev t == k) with
    | some u => simp [Option.or]
    | none =>
      simp only [Option.or, List.find?]
      rw [dictGet_dictInsert]
      by_cases he : effNamePrev t = k
      · have hb : (effNamePrev t == k) = true := by simp [he]
        simp [hb, he]
      · have hb : (effNamePrev t == k) = false := by simp [he]
        simp [hb, he]

/-- C6 counterexample: with two previous outcomes sharing the name login
test (durations 100 ms then 300 ms), the lookup used by the differ
returns the second occurrence, not the first, and the timing comparison
of the current 200 ms run uses the 300 ms duration, classifying it
better, where the first occurrence would classify it worse. -/
theorem c6_first_match_counterexample :
    dictGet? (buildPrevTestsMap [loginDupFirst, loginDupSecond]) "login test" =
      some loginDupSecond ∧
    dictGet? (buildPrevTestsMap [loginDupFirst, loginDupSecond]) "login test" ≠
      some loginDupFirst ∧
    computeTimeDiff loginDupCur
      (dictGet? (buildPrevTestsMap [loginDupFirst, loginDupSecond]) "login test") =
      TimeDiff.cmp "better" (-100) (-100/3) ∧
    computeTimeDiff loginDupCur (some loginDupFirst) = TimeDiff.cmp "worse" 100 100 := by
  have h1 : dictGet? (buildPrevTestsMap [loginDupFirst, loginDupSecond]) "login test" =
      some loginDupSecond := by
    simp [buildPrevTestsMap, dictInsert, dictGet?, effNamePrev, loginDupFirst, loginDupSecond]
  refine ⟨h1, ?_, ?_, ?_⟩
  · rw [h1]
    simp [loginDupFirst, loginDupSecond]
  · rw [h1]
    norm_num [computeTimeDiff, effDuration, loginDupCur, loginDupSecond]
  · norm_num [computeTimeDiff, effDuration, loginDupCur, loginDupFirst]

/-- C6 amended: the differ matches a current test name against the last
occurrence of that name in the previous sequence, because each dictionary
assignment for a repeated name overwrites the earlier one. -/
theorem c6_last_match_amended (prevTests : List TestRec) (nm : String) :
    dictGet? (buildPrevTestsMap prevTests) nm =
      prevTests.reverse.find? (fun t => effNamePrev t == nm) := by
  unfold buildPrevTestsMap
  rw [dictGet_foldInsert]
  cases h : prevTests.reverse.find? (fun t => effNamePrev t == nm) <;>
    simp [dictGet?, Option.or]

/-- C7: a current-run module whose module name is absent from the
previous map produces no comparison block at all, rather than a block of
zero-valued deltas. -/
theorem c7_absent_previous_module (prevMap : List (Option String × PrevParsedModule))
    (m : ParsedModule) (h : dictGet? prevMap m.module_name = none) :
    moduleComparison prevMap m = none := by
  simp [moduleComparison, h]

/-- Witness for c7_absent_previous_module: the empty previous map. -/
theorem c7_absent_previous_module_witness :
    moduleComparison [] stagingModule = none :=
  c7_absent_previous_module [] stagingModule rfl

/-- C9: once generation produced an artifact, any delivery outcome is
swallowed in both generators: the artifact stays in the file set, the
output-path line is printed, and the exit code is 0. -/
theorem c9_delivery_failure_swallowed (fs : List String) (p : String)
    (attempt : SlackAttempt) (refetch : Option (List SummaryRecord)) (hmem : p ∈ fs) :
    (p ∈ (htmlMainAfterGeneration fs (some p) attempt).files ∧
      ("HTML_OUTPUT_PATH:" ++ p) ∈ (htmlMainAfterGeneration fs (some p) attempt).printed ∧
      (htmlMainAfterGeneration fs (some p) attempt).exitCode = 0) ∧
    (p ∈ (pdfMainAfterGeneration fs (some p) refetch attempt).files ∧
      ("PDF_OUTPUT_PATH:" ++ p) ∈ (pdfMainAfterGeneration fs (some p) refetch attempt).printed ∧
      (pdfMainAfterGeneration fs (some p) refetch attempt).exitCode = 0) := by
  cases attempt <;> rcases refetch with _ | (_ | ⟨r, rs⟩) <;>
    simp [htmlMainAfterGeneration, pdfMainAfterGeneration, hmem]

/-- Witness for c9_delivery_failure_swallowed: a concrete artifact path
with an exception escaping the delivery attempt. -/
theorem c9_delivery_failure_swallowed_witness :
    ("reports/report.html" ∈ (htmlMainAfterGeneration ["reports/report.html"]
        (some "reports/report.html") SlackAttempt.raisedError).files ∧
      ("HTML_OUTPUT_PATH:" ++ "reports/report.html") ∈
        (htmlMainAfterGeneration ["reports/report.html"]
          (some "reports/report.html") SlackAttempt.raisedError).printed ∧
      (htmlMainAfterGeneration ["reports/report.html"]
        (some "reports/report.html") SlackAttempt.raisedError).exitCode = 0) ∧
    ("reports/report.html" ∈ (pdfMainAfterGeneration ["reports/report.html"]
        (some "reports/report.html") none SlackAttempt.raisedError).files ∧
      ("PDF_OUTPUT_PATH:" ++ "reports/report.html") ∈
        (pdfMainAfterGeneration ["reports/report.html"]
          (some "reports/report.html") none SlackAttempt.raisedError).printed ∧
      (pdfMainAfterGeneration ["reports/report.html"]
        (some "reports/report.html") none SlackAttempt.raisedError).exitCode = 0) :=
  c9_delivery_failure_swallowed ["reports/report.html"] "reports/report.html"
    SlackAttempt.raisedError none (by simp)

/-- The overall statistics of create_html are invariant under
permutations of the module list. -/
theorem htmlStats_perm (l1 l2 : List ParsedModule) (h : l1.Perm l2) :
    htmlStats l1 = htmlStats l2 := by
  have ht := (h.map (fun m => m.test_cases_run)).sum_eq
  have hp := (h.map (fun m => m.test_cases_passed)).sum_eq
  have hf := (h.map (fun m => m.test_cases_failed)).sum_eq
  have hs := (h.map (fun m => m.test_cases_skipped)).sum_eq
  simp only [htmlStats, ht, hp, hf, hs, h.length_eq]

/-- C10: the environment label is taken solely from the first module
record, defaulting to Unknown, in both generators; with differing
environment values, swapping the first two modules changes the label
while the overall statistics are unchanged. -/
theorem c10_environment_from_first_module :
    (∀ (m : ParsedModule) (rest : List ParsedModule),
      runEnv (m :: rest) = m.runenv.getD "Unknown") ∧
    (∀ (r : SummaryRecord) (rest : List SummaryRecord),
      pdfEnvironment (r :: rest) = r.runenv.getD "Unknown") ∧
    (∀ (m1 m2 : ParsedModule) (rest : List ParsedModule),
      m1.runenv.getD "Unknown" ≠ m2.runenv.getD "Unknown" →
        runEnv (m1 :: m2 :: rest) ≠ runEnv (m2 :: m1 :: rest) ∧
        htmlStats (m1 :: m2 :: rest) = htmlStats (m2 :: m1 :: rest)) := by
  refine ⟨fun m rest => rfl, fun r rest => rfl, fun m1 m2 rest hne => ⟨hne, ?_⟩⟩
  exact htmlStats_perm _ _ (List.Perm.swap m2 m1 rest)

/-- Witness for c10_environment_from_first_module: swapping a staging
module with a production module changes the rendered environment label
but not the overall statistics. -/
theorem c10_environment_from_first_module_witness :
    runEnv [stagingModule, productionModule] ≠ runEnv [productionModule, stagingModule] ∧
    htmlStats [stagingModule, productionModule] = htmlStats [productionModule, stagingModule] :=
  c10_environment_from_first_module.2.2 stagingModule productionModule []
    (by simp [stagingModule, productionModule, parseModule])
